import Mathlib

/-!
Shallow embedding of the array-as-struct derive macro
(src/derive/src/lib.rs) and of the runtime behavior of the code it
generates, together with theorems settling the specification claims.

The transformer consumes a parsed type declaration and either aborts with
diagnostics or emits an artifact bundle: the array wrapper type, the
Value/Refs/Muts companion records, the Index marker with one position
function per field, and the conversion and indexing trait bodies.
-/

namespace ArrayAsStruct

mutual

/-- Structural type expressions, standing in for syn Type values, with
the argument list of a path type and the element list of a tuple type
given by an explicit list spine (TyList).  Structural equality of syn
types (PartialEq) is decidable equality on this tree.  The tuple
constructor with the empty spine is the unit type that the transformer
falls back to for zero fields. -/
inductive Ty where
  | path (name : String) (args : TyList)
  | tuple (elems : TyList)
  | reference (mutable : Bool) (elem : Ty)
  | arr (elem : Ty) (len : Nat)
deriving DecidableEq

/-- A list spine of structural type expressions. -/
inductive TyList where
  | nil
  | cons (head : Ty) (tail : TyList)
deriving DecidableEq

end

/-- The unit type, Type Tuple with no elements (derive lib.rs lines 98-101). -/
def Ty.unit : Ty := .tuple .nil

def Ty.u32 : Ty := .path "u32" .nil
def Ty.u16 : Ty := .path "u16" .nil
def Ty.u8 : Ty := .path "u8" .nil

/-- A named field of a field-struct declaration (syn Field inside
Fields Named, where the ident is always present).  The span of the type
expression is carried separately so diagnostics can point at it. -/
structure Field where
  attrs : List String
  vis : String
  ident : String
  ty : Ty
  tySpan : Nat
deriving DecidableEq

/-- A positional field of a tuple struct (syn Field inside Fields
Unnamed, where the ident is always absent). -/
structure UField where
  attrs : List String
  vis : String
  ty : Ty
  tySpan : Nat
deriving DecidableEq

/-- The fields payload of a struct declaration (syn Fields). -/
inductive Fields where
  | named (fs : List Field)
  | unnamed (fs : List UField)
  | unit
deriving DecidableEq

/-- The item a field iterator yields (syn Field): the ident is optional,
present exactly for named fields. -/
structure FieldItem where
  attrs : List String
  vis : String
  ident : Option String
  ty : Ty
  tySpan : Nat
deriving DecidableEq

/-- Iterating data.fields (line 82): named fields carry their ident,
unnamed fields carry none, a unit payload yields nothing. -/
def Fields.toList : Fields → List FieldItem
  | .named fs => fs.map fun f => ⟨f.attrs, f.vis, some f.ident, f.ty, f.tySpan⟩
  | .unnamed fs => fs.map fun f => ⟨f.attrs, f.vis, none, f.ty, f.tySpan⟩
  | .unit => []

/-- The data payload of a declaration (syn Data). -/
inductive Data where
  | struct (fields : Fields)
  | enum
  | union
deriving DecidableEq

/-- A generic parameter (syn GenericParam), with its bound list. -/
inductive GenericParam where
  | lifetime (name : String) (bounds : List String)
  | type (name : String) (bounds : List String)
  | const (name : String) (ty : Ty)
deriving DecidableEq

/-- The parsed input declaration (syn DeriveInput).  The span field is
the whole-declaration span used by the shape aborts. -/
structure DeriveInput where
  ident : String
  generics : List GenericParam
  attrs : List String
  vis : String
  data : Data
  span : Nat
deriving DecidableEq

/-- One diagnostic: where it points, its message, and whether it is the
fatal abort diagnostic or a non-fatal emitted one. -/
structure Diag where
  span : Nat
  msg : String
  fatal : Bool
deriving DecidableEq

/-- Computation result: either the emitted diagnostics of an aborted
transform, or a success value. -/
inductive Result (ε α : Type) where
  | error (e : ε)
  | ok (a : α)
deriving DecidableEq

/-- Normalization of one generic parameter (derive lib.rs lines 60-79):
lifetimes lose their bounds, type parameters are kept, const parameters
become plain type parameters of the same name. -/
def normalizeParam : GenericParam → GenericParam
  | .lifetime name _ => .lifetime name []
  | .type name bounds => .type name bounds
  | .const name _ => .type name []

/-- The output bundle the macro emits on success: the data the quote
block at lines 109-304 interpolates.  The indexFns field records the
Index impl (lines 149-152): for each field ident, the value its
generated const function returns, in declaration order. -/
structure Artifact where
  ident : String
  vis : String
  attrs : List String
  genericParams : List GenericParam
  genericParamsNoAttr : List GenericParam
  foundCrate : String
  fieldTy : Ty
  fieldCount : Nat
  fieldCountStr : String
  fieldNames : List String
  fieldAttrs : List (List String)
  fieldVis : List String
  indexFns : List (String × Nat)
deriving DecidableEq

/-- The message of both shape aborts (lines 54 and 85). -/
def shapeMsg : String := "only named-field structs are supported"

/-- The non-fatal message at the stored earlier type (line 90). -/
def futureMsg : String := "type did not match future fields"

/-- The fatal message at the current field type (line 91). -/
def previousMsg : String := "type did not match previous fields"

/-- The field scan of lines 81-96.  State: the emitted non-fatal
diagnostics so far, and the field ty slot together with the span of the
stored type expression (in the source the stored syn Type value carries
its own span).  Per field, in source order: a field without an ident
aborts at the whole-declaration span; an empty slot is filled with the
field type; a slot that differs structurally from the field type first
emits the non-fatal diagnostic at the stored type and then aborts at the
current field type; a matching slot is put back unchanged, keeping the
original span.  An abort renders the emitted diagnostics followed by the
fatal one and terminates the scan at once.  On success the scan also
returns the (attrs, vis, ident) triple of every field, in order
(multiunzip at line 97). -/
def scanFields (astSpan : Nat) :
    List FieldItem → List Diag → Option (Ty × Nat) →
    Result (List Diag) (List Diag × Option (Ty × Nat) × List (List String × String × String))
  | [], emitted, slot => .ok (emitted, slot, [])
  | f :: rest, emitted, slot =>
    match f.ident with
    | none => .error (emitted ++ [⟨astSpan, shapeMsg, true⟩])
    | some name =>
      match slot with
      | none =>
        match scanFields astSpan rest emitted (some (f.ty, f.tySpan)) with
        | .error e => .error e
        | .ok (em, sl, tr) => .ok (em, sl, (f.attrs, f.vis, name) :: tr)
      | some (sty, sspan) =>
        if sty = f.ty then
          match scanFields astSpan rest emitted (some (sty, sspan)) with
          | .error e => .error e
          | .ok (em, sl, tr) => .ok (em, sl, (f.attrs, f.vis, name) :: tr)
        else
          .error (emitted ++ [⟨sspan, futureMsg, false⟩, ⟨f.tySpan, previousMsg, true⟩])

/-- The transform (derive lib.rs lines 32-307).  The attr token stream
is ignored by the source (the parameter is named with an underscore).
The crate_name environment lookup of lines 33-39 is modeled for the
FoundCrate Itself case, the one exercised inside this repository, where
the doctest flag picks the path root of the emitted code.  A non-struct
payload aborts at the whole-declaration span (lines 52-55).  Otherwise
the generics are normalized, the fields are scanned, abort_if_dirty
(line 107) aborts when any non-fatal diagnostic is pending, and the
artifact is assembled: the field ty slot falls back to the unit tuple
type (lines 98-101), the field count is the length of the vis list
(line 104), and the Index functions pair the field idents with 0, 1,
... (line 103 and lines 149-152). -/
def array_as_struct_helper (attr : List String) (item : DeriveInput) (doctest : Bool) :
    Result (List Diag) Artifact :=
  let _ := attr
  let foundCrate := if doctest then "array_as_struct" else "crate"
  let astSpan := item.span
  match item.data with
  | .enum => .error [⟨astSpan, shapeMsg, true⟩]
  | .union => .error [⟨astSpan, shapeMsg, true⟩]
  | .struct fields =>
    let genericParams := item.generics
    let genericParamsNoAttr := genericParams.map normalizeParam
    match scanFields astSpan fields.toList [] none with
    | .error e => .error e
    | .ok (emitted, slot, triples) =>
      let fieldTy := (slot.map Prod.fst).getD Ty.unit
      let attrFields := triples.map fun t => t.1
      let visFields := triples.map fun t => t.2.1
      let identFields := triples.map fun t => t.2.2
      let fieldCount := visFields.length
      if emitted.isEmpty then
        .ok { ident := item.ident, vis := item.vis, attrs := item.attrs,
              genericParams := genericParams,
              genericParamsNoAttr := genericParamsNoAttr,
              foundCrate := foundCrate,
              fieldTy := fieldTy, fieldCount := fieldCount,
              fieldCountStr := toString fieldCount,
              fieldNames := identFields, fieldAttrs := attrFields,
              fieldVis := visFields,
              indexFns := identFields.zip (List.range fieldCount) }
      else .error emitted

/-! Runtime semantics of the generated code, parametric in the element
type and the field count of a successful transform. -/

/-- A fixed-size array of n elements, the Rust array type the wrapper
holds: a list whose length is pinned to n. -/
def RArray (α : Type) (n : Nat) := { l : List α // l.length = n }

/-- The generated Value record for a declaration with n fields over
element type α: the value of each declared field, by zero-based
declaration position. -/
def Value (α : Type) (n : Nat) := Fin n → α

/-- The generated wrapper tuple struct (lines 112-117): one public
field, the array, accessed as field zero in the source. -/
structure Wrapper (α : Type) (n : Nat) where
  f0 : RArray α n

/-- The generated from_val (lines 122 and 187): builds the array
literal listing the fields of the value in declaration order and wraps
it. -/
def from_val (v : Value α n) : Wrapper α n :=
  ⟨⟨List.ofFn v, List.length_ofFn v⟩⟩

/-- The generated val (lines 190-198): destructures the array into one
binder per field, in declaration order, and rebuilds the Value record
from those binders. -/
def Wrapper.val (w : Wrapper α n) : Value α n :=
  fun i => w.f0.val.get (Fin.cast w.f0.property.symm i)

/-- The generated to_array (lines 168-171): returns field zero. -/
def Wrapper.to_array (w : Wrapper α n) : RArray α n := w.f0

/-- The generated from_array (lines 172-175): wraps the array. -/
def from_array (a : RArray α n) : Wrapper α n := ⟨a⟩

/-- Single-position indexing of the underlying array, with the
out-of-bounds panic modeled as none. -/
def arrayIndex? (a : List α) (i : Nat) : Option α := a[i]?

/-- Range indexing of the underlying array: the slice from lo
(inclusive) to hi (exclusive), with the panic on a backwards or
overlong range modeled as none. -/
def arraySlice? (a : List α) (lo hi : Nat) : Option (List α) :=
  if lo ≤ hi ∧ hi ≤ a.length then some ((a.drop lo).take (hi - lo)) else none

/-- The generated Index impl for a single position (lines 287-295):
delegates to indexing of field zero. -/
def Wrapper.index (w : Wrapper α n) (i : Nat) : Option α :=
  arrayIndex? w.f0.val i

/-- The generated Index impl for a range (lines 287-295): delegates to
range indexing of field zero. -/
def Wrapper.slice (w : Wrapper α n) (lo hi : Nat) : Option (List α) :=
  arraySlice? w.f0.val lo hi

/-! Concrete example declarations used by witnesses and
counterexamples.  Spans are arbitrary distinct markers: the declaration
span is 0 and the span of the type of field k is k. -/

/-- The two named u32 fields of the declaration in tests/test.rs. -/
def fooFields : List Field :=
  [⟨[], "", "bar", Ty.u32, 1⟩, ⟨[], "", "baz", Ty.u32, 2⟩]

/-- The two-field u32 declaration of tests/test.rs. -/
def fooDecl : DeriveInput :=
  ⟨"Foo", [], ["derive(Clone)"], "pub", .struct (.named fooFields), 0⟩

/-- The artifact the transform emits for fooDecl. -/
def fooArtifact : Artifact :=
  ⟨"Foo", "pub", ["derive(Clone)"], [], [], "crate", Ty.u32, 2, "2",
   ["bar", "baz"], [[], []], ["", ""], [("bar", 0), ("baz", 1)]⟩

/-- A three-field declaration where fields 1 and 2 share u32 and field 3
declares u16. -/
def mismatchDecl : DeriveInput :=
  ⟨"Mis", [], [], "pub",
   .struct (.named [⟨[], "", "a", Ty.u32, 1⟩, ⟨[], "", "b", Ty.u32, 2⟩,
                    ⟨[], "", "c", Ty.u16, 3⟩]), 0⟩

/-- A three-field declaration with three pairwise different field types,
so a second mismatch follows the first one. -/
def chainDecl : DeriveInput :=
  ⟨"Chain", [], [], "pub",
   .struct (.named [⟨[], "", "a", Ty.u32, 1⟩, ⟨[], "", "b", Ty.u16, 2⟩,
                    ⟨[], "", "c", Ty.u8, 3⟩]), 0⟩

/-- A named-field declaration with zero fields. -/
def emptyDecl : DeriveInput := ⟨"Empty", [], [], "pub", .struct (.named []), 0⟩

/-- The artifact the transform emits for emptyDecl. -/
def emptyArtifact : Artifact :=
  ⟨"Empty", "pub", [], [], [], "crate", Ty.unit, 0, "0", [], [], [], []⟩

/-- A tuple struct with zero positional fields. -/
def emptyTupleDecl : DeriveInput :=
  ⟨"Tup", [], [], "pub", .struct (.unnamed []), 7⟩

/-- The artifact the transform emits for emptyTupleDecl. -/
def emptyTupleArtifact : Artifact :=
  ⟨"Tup", "pub", [], [], [], "crate", Ty.unit, 0, "0", [], [], [], []⟩

/-- An enum declaration. -/
def enumDecl : DeriveInput := ⟨"En", [], [], "pub", .enum, 9⟩

/-- A tuple struct with one positional u32 field. -/
def oneTupleDecl : DeriveInput :=
  ⟨"Tup1", [], [], "pub", .struct (.unnamed [⟨[], "", Ty.u32, 1⟩]), 5⟩

/-! Lemmas about the field scan and the transform. -/

/-- Scanning past a prefix of named fields that all match the stored
slot type propagates any error produced on the remaining fields. -/
lemma scanFields_error_of_matching_front (a : Nat) (t : Ty) (s : Nat) :
    ∀ (pre rest : List FieldItem) (em e : List Diag),
      (∀ g ∈ pre, g.ident.isSome ∧ g.ty = t) →
      scanFields a rest em (some (t, s)) = .error e →
      scanFields a (pre ++ rest) em (some (t, s)) = .error e := by
  intro pre
  induction pre with
  | nil => intro rest em e _ h; simpa using h
  | cons g pre ih =>
    intro rest em e hpre h
    obtain ⟨hsome, hty⟩ := hpre g (by simp)
    obtain ⟨name, hname⟩ := Option.isSome_iff_exists.mp hsome
    have hrec := ih rest em e (fun x hx => hpre x (by simp [hx])) h
    simp only [List.cons_append, scanFields, hname, hty, List.append_eq]
    simp [hrec]

/-- On a successful scan, every field contributed its (attrs, vis,
ident) triple, in order, and the emitted diagnostics are unchanged. -/
lemma scanFields_ok_triples (a : Nat) :
    ∀ (items : List FieldItem) (em : List Diag) (slot : Option (Ty × Nat))
      (em2 : List Diag) (sl : Option (Ty × Nat))
      (tr : List (List String × String × String)),
      scanFields a items em slot = .ok (em2, sl, tr) →
      tr = items.map (fun it => (it.attrs, it.vis, it.ident.getD "")) ∧ em2 = em := by
  intro items
  induction items with
  | nil =>
    intro em slot em2 sl tr h
    simp only [scanFields, Result.ok.injEq, Prod.mk.injEq] at h
    simp [← h.1, ← h.2.2]
  | cons it items ih =>
    intro em slot em2 sl tr h
    cases hid : it.ident with
    | none => simp [scanFields, hid] at h
    | some name =>
      cases slot with
      | none =>
        simp only [scanFields, hid] at h
        cases hrec : scanFields a items em (some (it.ty, it.tySpan)) with
        | error e => rw [hrec] at h; cases h
        | ok x =>
          obtain ⟨em3, sl3, tr3⟩ := x
          rw [hrec] at h
          simp only [Result.ok.injEq, Prod.mk.injEq] at h
          obtain ⟨h1, _, h3⟩ := h
          obtain ⟨htr, hem⟩ := ih em (some (it.ty, it.tySpan)) em3 sl3 tr3 hrec
          subst h1
          simp [← h3, htr, hem, hid]
      | some ts =>
        obtain ⟨sty, sspan⟩ := ts
        by_cases hty : sty = it.ty
        · simp only [scanFields, hid, if_pos hty] at h
          cases hrec : scanFields a items em (some (sty, sspan)) with
          | error e => rw [hrec] at h; cases h
          | ok x =>
            obtain ⟨em3, sl3, tr3⟩ := x
            rw [hrec] at h
            simp only [Result.ok.injEq, Prod.mk.injEq] at h
            obtain ⟨h1, _, h3⟩ := h
            obtain ⟨htr, hem⟩ := ih em (some (sty, sspan)) em3 sl3 tr3 hrec
            subst h1
            simp [← h3, htr, hem, hid]
        · simp [scanFields, hid, if_neg hty] at h

/-- On a successful transform of a named-field declaration, the
artifact lists the field idents in declaration order, counts them, and
pairs them with the positions 0, 1, ... in the Index functions. -/
lemma helper_ok_fields (attr : List String) (item : DeriveInput) (d : Bool)
    (fs : List Field) (art : Artifact)
    (hdata : item.data = .struct (.named fs))
    (hok : array_as_struct_helper attr item d = .ok art) :
    art.fieldNames = fs.map Field.ident ∧
    art.fieldCount = fs.length ∧
    art.indexFns = (fs.map Field.ident).zip (List.range fs.length) := by
  simp only [array_as_struct_helper, hdata] at hok
  cases hscan : scanFields item.span (Fields.toList (Fields.named fs)) [] none with
  | error e => rw [hscan] at hok; cases hok
  | ok x =>
    obtain ⟨em, sl, tr⟩ := x
    rw [hscan] at hok
    obtain ⟨htr, hem⟩ := scanFields_ok_triples item.span _ [] none em sl tr hscan
    subst hem
    simp only [List.isEmpty_nil, if_true, Result.ok.injEq] at hok
    subst hok
    have hnames : tr.map (fun t => t.2.2) = fs.map Field.ident := by
      subst htr
      simp [Fields.toList, Function.comp]
    have hlen : tr.length = fs.length := by
      have := congrArg List.length hnames
      simpa using this
    refine ⟨hnames, ?_, ?_⟩
    · simpa using hlen
    · simp [hnames, hlen]

/-- The generated val inverts the generated from_val: reading the array
literal back position by position recovers every field value. -/
lemma val_from_val_fun (α : Type) (n : Nat) (v : Value α n) :
    (from_val v).val = v := by
  funext i
  show (List.ofFn v).get (Fin.cast _ i) = v i
  rw [List.get_eq_getElem, List.getElem_ofFn]
  congr 1

/-! Claim theorems. -/

/-- Claim C2: for a three-field declaration whose fields 1 and 2 share
type u32 and whose field 3 declares type u16, the transform fails, so
no declarations are generated, and it emits exactly two diagnostics:
one non-fatal informational diagnostic located at the type of field 1
and one fatal diagnostic located at the type of field 3. -/
theorem three_field_mismatch_diagnostics :
    array_as_struct_helper [] mismatchDecl false =
      .error [⟨1, futureMsg, false⟩, ⟨3, previousMsg, true⟩] ∧
    (([⟨1, futureMsg, false⟩, ⟨3, previousMsg, true⟩] : List Diag).filter
      (fun diag => !diag.fatal)).map Diag.span = [1] ∧
    (([⟨1, futureMsg, false⟩, ⟨3, previousMsg, true⟩] : List Diag).filter
      (fun diag => diag.fatal)).map Diag.span = [3] := by
  refine ⟨?_, by decide, by decide⟩
  decide

/-- Claim C3: for every declaration the transform accepts, with N the
resulting field count, converting an array of N elements to the wrapper
with from_array and back with to_array yields the array unchanged. -/
theorem array_round_trip (attr : List String) (item : DeriveInput) (d : Bool)
    (art : Artifact) (_hok : array_as_struct_helper attr item d = .ok art)
    (α : Type) (a : RArray α art.fieldCount) :
    (from_array a).to_array = a := rfl

/-- Witness for the array round trip at the declaration of
tests/test.rs and the array holding 10 and 15. -/
theorem array_round_trip_witness :
    (from_array (⟨[10, 15], rfl⟩ : RArray Nat fooArtifact.fieldCount)).to_array =
      ⟨[10, 15], rfl⟩ :=
  array_round_trip [] fooDecl false fooArtifact (by decide) Nat ⟨[10, 15], rfl⟩

/-- Claim C4: for every declaration the transform accepts, with N the
resulting field count, converting a Value record to the wrapper with
from_val and back with val yields the same Value record, field for
field. -/
theorem value_round_trip (attr : List String) (item : DeriveInput) (d : Bool)
    (art : Artifact) (_hok : array_as_struct_helper attr item d = .ok art)
    (α : Type) (v : Value α art.fieldCount) :
    (from_val v).val = v :=
  val_from_val_fun α art.fieldCount v

/-- Witness for the value round trip at the declaration of
tests/test.rs and a concrete field assignment. -/
theorem value_round_trip_witness :
    (from_val (fun j : Fin fooArtifact.fieldCount => 10 + 5 * j.val)).val =
      (fun j : Fin fooArtifact.fieldCount => 10 + 5 * j.val) :=
  value_round_trip [] fooDecl false fooArtifact (by decide) Nat
    (fun j => 10 + 5 * j.val)

/-- Claim C6: every struct declaration with zero fields is accepted,
the unified field type degrades to the empty tuple type, the wrapper
holds an array of length 0, the Value type has zero fields, the Index
marker has no functions, and the round-trip properties hold vacuously
at count 0. -/
theorem zero_fields_unit_artifact (attr : List String) (item : DeriveInput)
    (d : Bool) (fields : Fields) (hdata : item.data = .struct fields)
    (hempty : fields.toList = []) :
    array_as_struct_helper attr item d =
      .ok { ident := item.ident, vis := item.vis, attrs := item.attrs,
            genericParams := item.generics,
            genericParamsNoAttr := item.generics.map normalizeParam,
            foundCrate := if d then "array_as_struct" else "crate",
            fieldTy := Ty.unit, fieldCount := 0, fieldCountStr := "0",
            fieldNames := [], fieldAttrs := [], fieldVis := [],
            indexFns := [] } ∧
    (∀ (α : Type) (a : RArray α 0), (from_array a).to_array = a) ∧
    (∀ (α : Type) (v : Value α 0), (from_val v).val = v) := by
  refine ⟨?_, fun _ _ => rfl, fun α v => val_from_val_fun α 0 v⟩
  simp [array_as_struct_helper, hdata, hempty, scanFields, Ty.unit]
  rfl

/-- Witness for the zero-field degradation at the concrete empty
named-field declaration. -/
theorem zero_fields_unit_artifact_witness :
    array_as_struct_helper [] emptyDecl false = .ok emptyArtifact :=
  (zero_fields_unit_artifact [] emptyDecl false (.named []) rfl rfl).1

/-- Claim C8: indexing the wrapper delegates to the underlying array,
for a single position and for a range, and the wrapper indexing fails
exactly when the array indexing fails: a single position fails exactly
when it is at least the length, a range fails exactly when it is
backwards or its upper end exceeds the length. -/
theorem indexing_delegates_to_array (α : Type) (n : Nat) (w : Wrapper α n)
    (i lo hi : Nat) :
    w.index i = arrayIndex? w.to_array.val i ∧
    (w.index i = none ↔ n ≤ i) ∧
    w.slice lo hi = arraySlice? w.to_array.val lo hi ∧
    (w.slice lo hi = none ↔ ¬(lo ≤ hi ∧ hi ≤ n)) := by
  refine ⟨rfl, ?_, rfl, ?_⟩
  · unfold Wrapper.index arrayIndex?
    rw [List.getElem?_eq_none_iff, w.f0.property]
  · unfold Wrapper.slice arraySlice?
    rw [w.f0.property]
    split_ifs with h
    · simp [h]
    · simp [h]

/-- Claim C9: the configuration token stream has no effect: the
transform gives the same result under any two configuration streams. -/
theorem config_stream_ignored (c1 c2 : List String) (item : DeriveInput)
    (d : Bool) :
    array_as_struct_helper c1 item d = array_as_struct_helper c2 item d := rfl

/-- Claim C5: for every named-field declaration the transform accepts,
the Index marker carries one function per field ident, in declaration
order; the function of the field at zero-based position i returns i, so
the N functions return the N distinct values 0 to N - 1 with no
collisions. -/
theorem index_functions_positions (attr : List String) (item : DeriveInput)
    (d : Bool) (fs : List Field) (art : Artifact)
    (hdata : item.data = .struct (.named fs))
    (hok : array_as_struct_helper attr item d = .ok art) :
    art.fieldNames = fs.map Field.ident ∧
    art.fieldCount = fs.length ∧
    art.indexFns = (fs.map Field.ident).zip (List.range fs.length) ∧
    art.indexFns.map Prod.snd = List.range fs.length ∧
    (art.indexFns.map Prod.snd).Nodup := by
  obtain ⟨h1, h2, h3⟩ := helper_ok_fields attr item d fs art hdata hok
  have hsnd : art.indexFns.map Prod.snd = List.range fs.length := by
    rw [h3]
    apply List.map_snd_zip
    simp
  exact ⟨h1, h2, h3, hsnd, by rw [hsnd]; exact List.nodup_range fs.length⟩

/-- Witness for the Index position functions at the declaration of
tests/test.rs: bar maps to 0 and baz maps to 1. -/
theorem index_functions_positions_witness :
    fooArtifact.fieldNames = fooFields.map Field.ident ∧
    fooArtifact.fieldCount = fooFields.length ∧
    fooArtifact.indexFns =
      (fooFields.map Field.ident).zip (List.range fooFields.length) ∧
    fooArtifact.indexFns.map Prod.snd = List.range fooFields.length ∧
    (fooArtifact.indexFns.map Prod.snd).Nodup :=
  index_functions_positions [] fooDecl false fooFields fooArtifact rfl (by decide)

/-- Claim C10: from_val lays the field values out in declaration order:
for every accepted named-field declaration, every field assignment and
every position i below the field count, the array obtained through
to_array of from_val holds the value of the field at position i exactly
at index i, and the Index function of that field returns i. -/
theorem from_val_declaration_order (attr : List String) (item : DeriveInput)
    (d : Bool) (fs : List Field) (art : Artifact)
    (hdata : item.data = .struct (.named fs))
    (hok : array_as_struct_helper attr item d = .ok art)
    (α : Type) (v : Value α art.fieldCount) (i : Nat) (h : i < art.fieldCount) :
    ((from_val v).to_array).val[i]? = some (v ⟨i, h⟩) ∧
    (art.indexFns.map Prod.snd)[i]? = some i := by
  constructor
  · show (List.ofFn v)[i]? = _
    rw [List.getElem?_eq_getElem (by simpa using h), List.getElem_ofFn]
  · obtain ⟨h1, h2, h3⟩ := helper_ok_fields attr item d fs art hdata hok
    have hsnd : art.indexFns.map Prod.snd = List.range fs.length := by
      rw [h3]
      apply List.map_snd_zip
      simp
    rw [hsnd, List.getElem?_range (h2 ▸ h)]

/-- Witness for the declaration-order layout at the declaration of
tests/test.rs, position 1 and a concrete field assignment. -/
theorem from_val_declaration_order_witness :
    ((from_val (fun j : Fin fooArtifact.fieldCount => 10 + 5 * j.val)).to_array).val[1]? =
      some ((fun j : Fin fooArtifact.fieldCount => 10 + 5 * j.val) ⟨1, by decide⟩) ∧
    (fooArtifact.indexFns.map Prod.snd)[1]? = some 1 :=
  from_val_declaration_order [] fooDecl false fooFields fooArtifact rfl (by decide)
    Nat (fun j => 10 + 5 * j.val) 1 (by decide)

/-- Claim C1, amended: when a named-field declaration starts with a
field, continues with fields of the same type, and then reaches a first
field whose type differs structurally from the established one, the
transform emits exactly two diagnostics, the non-fatal one at the type
of the first field, where the unified type was established, and the
fatal one at the type of the mismatching field, and terminates at once:
the remaining fields are not scanned, whatever they contain. -/
theorem mismatch_aborts_at_first_conflict (attr : List String)
    (item : DeriveInput) (d : Bool) (g0 : Field) (pre : List Field) (f : Field)
    (post : List Field)
    (hdata : item.data = .struct (.named (g0 :: (pre ++ f :: post))))
    (hpre : ∀ g ∈ pre, g.ty = g0.ty)
    (hf : g0.ty ≠ f.ty) :
    array_as_struct_helper attr item d =
      .error [⟨g0.tySpan, futureMsg, false⟩, ⟨f.tySpan, previousMsg, true⟩] := by
  have hstep2 : scanFields item.span
      ((⟨f.attrs, f.vis, some f.ident, f.ty, f.tySpan⟩ : FieldItem) ::
        post.map (fun fd => ⟨fd.attrs, fd.vis, some fd.ident, fd.ty, fd.tySpan⟩))
      [] (some (g0.ty, g0.tySpan)) =
      .error [⟨g0.tySpan, futureMsg, false⟩, ⟨f.tySpan, previousMsg, true⟩] := by
    simp [scanFields, hf]
  have hpref := scanFields_error_of_matching_front item.span g0.ty g0.tySpan
    (pre.map (fun fd => ⟨fd.attrs, fd.vis, some fd.ident, fd.ty, fd.tySpan⟩))
    ((⟨f.attrs, f.vis, some f.ident, f.ty, f.tySpan⟩ : FieldItem) ::
      post.map (fun fd => ⟨fd.attrs, fd.vis, some fd.ident, fd.ty, fd.tySpan⟩))
    [] [⟨g0.tySpan, futureMsg, false⟩, ⟨f.tySpan, previousMsg, true⟩]
    (by
      intro g hg
      simp only [List.mem_map] at hg
      obtain ⟨fd, hfd, rfl⟩ := hg
      exact ⟨rfl, hpre fd hfd⟩)
    hstep2
  simp only [array_as_struct_helper, hdata, Fields.toList, List.map_cons,
    List.map_append, scanFields, List.append_eq]
  rw [hpref]

/-- Witness for the amended mismatch behavior at the three-type chain
declaration: the first mismatch, at field b, yields the two diagnostics
at the types of fields a and b. -/
theorem mismatch_aborts_at_first_conflict_witness :
    array_as_struct_helper [] chainDecl false =
      .error [⟨1, futureMsg, false⟩, ⟨2, previousMsg, true⟩] :=
  mismatch_aborts_at_first_conflict [] chainDecl false
    ⟨[], "", "a", Ty.u32, 1⟩ [] ⟨[], "", "b", Ty.u16, 2⟩
    [⟨[], "", "c", Ty.u8, 3⟩] rfl (fun g hg => absurd hg (List.not_mem_nil g))
    (by decide)

/-- Counterexample to claim C1 as stated: in the three-type chain
declaration the third field, whose type span is 3, also differs
structurally from the established unified type u32, yet the transform
stops after the first mismatch: it emits only the two diagnostics of
the first mismatch, at spans 1 and 2, and no diagnostic points at span
3, so scanning does not continue over the remaining fields. -/
theorem later_mismatch_not_reported :
    array_as_struct_helper [] chainDecl false =
      .error [⟨1, futureMsg, false⟩, ⟨2, previousMsg, true⟩] ∧
    (([⟨1, futureMsg, false⟩, ⟨2, previousMsg, true⟩] : List Diag).all
      fun diag => diag.span != 3) = true := by
  refine ⟨?_, by decide⟩
  decide

/-- Claim C7, amended: a declaration whose payload is an enum, a union,
or a tuple struct with at least one positional field is rejected with a
single fatal diagnostic at the whole-declaration span and produces no
output.  A tuple struct with zero positional fields, however, is
accepted, so the amendment restricts the positional case to nonempty
field lists. -/
theorem unsupported_shape_single_fatal (attr : List String)
    (item : DeriveInput) (d : Bool)
    (h : item.data = Data.enum ∨ item.data = Data.union ∨
         ∃ u us, item.data = Data.struct (Fields.unnamed (u :: us))) :
    array_as_struct_helper attr item d =
      .error [⟨item.span, shapeMsg, true⟩] := by
  rcases h with h | h | ⟨u, us, h⟩
  · simp [array_as_struct_helper, h]
  · simp [array_as_struct_helper, h]
  · simp [array_as_struct_helper, h, Fields.toList, scanFields]

/-- Witness for the amended shape rejection: the enum declaration and
the one-field tuple struct are both rejected with the single fatal
diagnostic at their whole-declaration spans 9 and 5. -/
theorem unsupported_shape_single_fatal_witness :
    array_as_struct_helper [] enumDecl false = .error [⟨9, shapeMsg, true⟩] ∧
    array_as_struct_helper [] oneTupleDecl false = .error [⟨5, shapeMsg, true⟩] :=
  ⟨unsupported_shape_single_fatal [] enumDecl false (Or.inl rfl),
   unsupported_shape_single_fatal [] oneTupleDecl false
     (Or.inr (Or.inr ⟨⟨[], "", Ty.u32, 1⟩, [], rfl⟩))⟩

/-- Counterexample to claim C7 as stated: a tuple struct with zero
positional fields is a positional struct, so the claim requires the
transform to fail on it, but the transform accepts it and produces the
zero-field artifact over the unit type. -/
theorem empty_tuple_struct_accepted :
    array_as_struct_helper [] emptyTupleDecl false = .ok emptyTupleArtifact := by
  decide

end ArrayAsStruct
